import Mathlib

/-!
# Verification of the CheapFlightFinder pipeline against its specification

Shallow embedding of the repository's Python sources (`main.py`,
`flight_alert_workflow.py`, `start_flight_bot.py`) in Lean 4, together with
theorems settling the specification's claims.

Prices are modelled as rationals (`ℚ`); a flight document's possibly missing
`price` field is an `Option ℚ`, and `f.get('price', 0)` becomes
`Option.getD · 0`.
-/

namespace CheapFlightFinder

/-! ## Flight documents and the invalid-price filters (`main.py`) -/

/-- A stored flight document, restricted to the fields the dashboard queries
read: `origin`, `destination`, `departure_date` and the possibly missing
`price`. -/
structure FlightDoc where
  origin : String
  destination : String
  departure_date : String
  price : Option ℚ
deriving DecidableEq, Repr

/-- `f.get('price', 0)` from `main.py`: the stored price, defaulting to `0`
when the field is absent. -/
def FlightDoc.priceOrZero (f : FlightDoc) : ℚ :=
  f.price.getD 0

/-- The invalid-price predicate of the flight-listing endpoint
(`main.py` line 179):
`f.get('price', 0) != 9999 and f.get('price', 0) != -1 and f.get('price', 0) > 0`. -/
def listingPriceValid (p : ℚ) : Bool :=
  decide (p ≠ 9999) && decide (p ≠ -1) && decide (0 < p)

/-- The invalid-price predicate of the statistics endpoint
(`main.py` line 341):
`f.get('price', 0) > 0 and f.get('price', 0) != 9999`. -/
def statisticsPriceValid (p : ℚ) : Bool :=
  decide (0 < p) && decide (p ≠ 9999)

/-- The Mongo query filter of `get_flights` (`main.py` lines 160-173): match
on each query parameter when present; when no departure date is given,
restrict to departure dates between `today` and `future` (today + 120 days),
compared as strings. -/
def matchesQuery (qOrigin qDest qDate : Option String) (today future : String)
    (f : FlightDoc) : Bool :=
  (match qOrigin with
   | some o => f.origin == o
   | none => true) &&
  (match qDest with
   | some d => f.destination == d
   | none => true) &&
  (match qDate with
   | some d => f.departure_date == d
   | none => decide (today ≤ f.departure_date) && decide (f.departure_date ≤ future))

/-- The MongoDB branch of `get_flights` (`main.py` lines 159-184): fetch the
documents matching the query, then drop those with an invalid price. -/
def get_flights_db (qOrigin qDest qDate : Option String) (today future : String)
    (stored : List FlightDoc) : List FlightDoc :=
  (stored.filter (matchesQuery qOrigin qDest qDate today future)).filter
    (fun f => listingPriceValid f.priceOrZero)

/-! ## AnomalyDetector (spec §4.4)

The detection logic lives in `flight_alert_bot/generate_alerts.py`, which is
not among the provided source files; only its callers are.  The definitions
below are therefore modelled from the specification's words. -/

/-- Modelled from the spec: the per-route price baseline of §3/§4.4
(`flight_alert_bot/generate_alerts.py` and the baseline tracker are missing
from the sources) — running mean, standard deviation and sample count. -/
structure RouteBaseline where
  mean : ℚ
  stddev : ℚ
  sample_count : ℕ
deriving DecidableEq, Repr

/-- Modelled from the spec: the detector's configured thresholds of §4.4 —
percentage threshold, z-score threshold, minimum sample count for the
statistical test, and the absolute price ceiling. -/
structure DetectorConfig where
  price_drop_percentage_threshold : ℚ
  price_drop_z_score_threshold : ℚ
  minimum_samples : ℕ
  price_ceiling : ℚ
deriving DecidableEq, Repr

/-- Modelled from the spec: `(baseline.mean − price) / baseline.mean * 100`,
the percentage drop of §4.4. -/
def percentageDrop (b : RouteBaseline) (price : ℚ) : ℚ :=
  (b.mean - price) / b.mean * 100

/-- Modelled from the spec: `z = (baseline.mean − price) / baseline.stddev`
of §4.4. -/
def zScore (b : RouteBaseline) (price : ℚ) : ℚ :=
  (b.mean - price) / b.stddev

/-- Modelled from the spec: the percentage test fires when the percentage
drop reaches the configured threshold. -/
def percentageFires (cfg : DetectorConfig) (b : RouteBaseline) (price : ℚ) : Bool :=
  decide (cfg.price_drop_percentage_threshold ≤ percentageDrop b price)

/-- Modelled from the spec: the statistical test requires
`baseline.sample_count ≥ minimum_samples` and fires when the z-score reaches
the configured threshold. -/
def zFires (cfg : DetectorConfig) (b : RouteBaseline) (price : ℚ) : Bool :=
  decide (cfg.minimum_samples ≤ b.sample_count) &&
    decide (cfg.price_drop_z_score_threshold ≤ zScore b price)

/-- Modelled from the spec: the hard gating of §4.4 — the price must be a
real fare (positive, not a reserved sentinel) and at most the configured
ceiling. -/
def priceAdmissible (cfg : DetectorConfig) (price : ℚ) : Bool :=
  decide (0 < price) && decide (price ≤ cfg.price_ceiling) &&
    decide (price ≠ 9999) && decide (price ≠ -1)

/-- A candidate alert carrying both computed scores, as §4.4's output
requires for observability. -/
structure AlertCandidate where
  percentage_drop : ℚ
  z_score : ℚ
deriving DecidableEq, Repr

/-- Modelled from the spec: the ALERT / NO-ALERT decision of §4.4 — after
the hard price gating, either test firing produces a candidate alert with
both scores recorded; otherwise no alert. -/
def detect (cfg : DetectorConfig) (b : RouteBaseline) (price : ℚ) :
    Option AlertCandidate :=
  if priceAdmissible cfg price &&
      (percentageFires cfg b price || zFires cfg b price) then
    some ⟨percentageDrop b price, zScore b price⟩
  else
    none

/-! ## The per-tick pipeline and its runner
(`flight_alert_workflow.py`, `start_flight_bot.py`)

A stage is modelled as an `Except String ℕ` computation: either the count it
returns, or the exception it raises. -/

/-- The four pipeline stages invoked by the runners. -/
inductive StageId where
  | fetchOneWay
  | fetchReturn
  | combine
  | alerts
deriving DecidableEq, Repr

/-- The canonical stage order of one tick: fetch one-way flights, fetch
return flights, create flight combinations, generate and send alerts. -/
def stageOrder : List StageId :=
  [.fetchOneWay, .fetchReturn, .combine, .alerts]

/-- Whether a stage result is a normal return rather than a raised
exception. -/
def stageOk (r : Except String ℕ) : Bool :=
  match r with
  | .ok _ => true
  | .error _ => false

/-- `run_bot_once` of `flight_alert_workflow.py` (lines 23-63): the four
stages run in sequence inside a single `try` block, so a raised exception
abandons the remainder of the tick; the handler catches it and returns the
default 15-minute interval, while a fully successful tick returns the
configured `SCRAPE_INTERVAL_MINUTES`.  The first component records which
stages actually started executing, in order. -/
def run_bot_once (scrapeIntervalMinutes : ℕ)
    (stage : StageId → Except String ℕ) : List StageId × ℕ :=
  match stage .fetchOneWay with
  | .error _ => ([.fetchOneWay], 15)
  | .ok _ =>
    match stage .fetchReturn with
    | .error _ => ([.fetchOneWay, .fetchReturn], 15)
    | .ok _ =>
      match stage .combine with
      | .error _ => ([.fetchOneWay, .fetchReturn, .combine], 15)
      | .ok _ =>
        match stage .alerts with
        | .error _ => (stageOrder, 15)
        | .ok _ => (stageOrder, scrapeIntervalMinutes)

/-- `run_scheduled_task` of `start_flight_bot.py` (lines 63-99): the same
four stages inside a single `try` block, returning `True` on a fully
successful tick and `False` when any stage raised. -/
def run_scheduled_task (stage : StageId → Except String ℕ) :
    List StageId × Bool :=
  match stage .fetchOneWay with
  | .error _ => ([.fetchOneWay], false)
  | .ok _ =>
    match stage .fetchReturn with
    | .error _ => ([.fetchOneWay, .fetchReturn], false)
    | .ok _ =>
      match stage .combine with
      | .error _ => ([.fetchOneWay, .fetchReturn, .combine], false)
      | .ok _ =>
        match stage .alerts with
        | .error _ => (stageOrder, false)
        | .ok _ => (stageOrder, true)

/-- Observable events of the continuous runner's main loop. -/
inductive Event where
  | tickStart (i : ℕ)
  | tickEnd (i : ℕ)
  | sleepSeconds (d : ℕ)
deriving DecidableEq, Repr

/-- `main` of `flight_alert_workflow.py` (lines 65-85): an endless loop that
runs `run_bot_once`, then sleeps `interval_minutes * 60` seconds with the
interval returned by the tick.  `mainTrace cfg ticks k` is the event trace
of the first `k` iterations, `ticks i` being the stage behaviour during
iteration `i`. -/
def mainTrace (scrapeIntervalMinutes : ℕ)
    (ticks : ℕ → StageId → Except String ℕ) : ℕ → List Event
  | 0 => []
  | k + 1 =>
    mainTrace scrapeIntervalMinutes ticks k ++
      [.tickStart k, .tickEnd k,
       .sleepSeconds ((run_bot_once scrapeIntervalMinutes (ticks k)).2 * 60)]

/-- A concrete tick in which the return-flight fetch raises and the other
stages would succeed. -/
def failingReturnStages : StageId → Except String ℕ :=
  fun st =>
    match st with
    | .fetchReturn => .error "network error"
    | _ => .ok 0

/-- A concrete tick in which the combination stage raises and the other
stages would succeed. -/
def failingCombineStages : StageId → Except String ℕ :=
  fun st =>
    match st with
    | .combine => .error "db error"
    | _ => .ok 3

/-- A concrete tick in which every stage succeeds. -/
def allOkStages : StageId → Except String ℕ :=
  fun _ => .ok 1

/-! ## Startup persistence connection (`main.py` lines 38-76) -/

/-- How the dashboard process comes up. -/
inductive StartupOutcome where
  | runningWithMongo
  | runningWithMock
  | aborted
deriving DecidableEq, Repr

/-- The module-level MongoDB connection setup of `main.py` (lines 52-76):
when mock data is not forced and a URI is configured, connect and ping; a
`ConnectionFailure` is caught, logged, and the app falls back to mock data
(`use_mock_data = True`) and keeps serving.  Without a URI (or with mock
forced) the app starts on mock data directly. -/
def startup (mockEnv : Bool) (mongodbUri : Option String) (pingOk : Bool) :
    StartupOutcome :=
  if !mockEnv && mongodbUri.isSome then
    if pingOk then .runningWithMongo
    else .runningWithMock
  else .runningWithMock

/-! ## Dashboard configuration endpoint (`main.py` lines 405-538) -/

/-- The JSON body of a configuration POST, with one optional field per key
`update_env_file` recognizes; an absent key is `none`.  JSON numbers are
modelled as rationals. -/
structure ConfigData where
  scrape_interval_minutes : Option ℚ
  data_retention_days : Option ℚ
  debug_mode : Option Bool
  routes : Option (List String)
  departure_date_start : Option String
  departure_date_end : Option String
  short_flight_min_stay : Option ℚ
  short_flight_max_stay : Option ℚ
  long_flight_min_stay : Option ℚ
  long_flight_max_stay : Option ℚ
  return_date_min_stay : Option ℚ
  return_date_max_stay : Option ℚ
  price_drop_percentage : Option ℚ
  price_drop_z_score : Option ℚ
  max_price_try : Option ℚ
  use_real_time_currency_rates : Option Bool
  currency_rates : Option (List (String × ℚ))
  telegram_enabled : Option Bool
  telegram_bot_token : Option String
  telegram_chat_id : Option String
deriving DecidableEq, Repr

/-- A POST body with every key absent. -/
def emptyConfigData : ConfigData :=
  ⟨none, none, none, none, none, none, none, none, none, none,
   none, none, none, none, none, none, none, none, none, none⟩

/-- A Python dict update on the parsed `.env` key/value pairs: replace the
value in place when the key exists, otherwise append the new entry. -/
def setVar (env : List (String × String)) (k v : String) :
    List (String × String) :=
  if env.any (fun p => p.1 == k) then
    env.map (fun p => if p.1 == k then (k, v) else p)
  else
    env ++ [(k, v)]

/-- Set an `.env` key from an optional rendered value, doing nothing when
the POST body lacked the corresponding key. -/
def setVarOpt (env : List (String × String)) (k : String) :
    Option String → List (String × String)
  | none => env
  | some v => setVar env k v

/-- `update_env_file` of `main.py` (lines 405-504): for each recognized key
present in the POST body, set the corresponding `.env` variable; keys absent
from the body leave their variables untouched.  The parsing and rewriting of
the file's physical lines is abstracted into the key/value pairs
themselves. -/
def update_env_file (data : ConfigData) (env : List (String × String)) :
    List (String × String) :=
  let e := setVarOpt env "SCRAPE_INTERVAL_MINUTES"
    (data.scrape_interval_minutes.map toString)
  let e := setVarOpt e "DATA_RETENTION_DAYS"
    (data.data_retention_days.map toString)
  let e := setVarOpt e "DEBUG"
    (data.debug_mode.map (fun b => if b then "true" else "false"))
  let e := setVarOpt e "ROUTES" (data.routes.map (String.intercalate ","))
  let e := setVarOpt e "DEPARTURE_DATE_START" data.departure_date_start
  let e := setVarOpt e "DEPARTURE_DATE_END" data.departure_date_end
  let e := setVarOpt e "SHORT_FLIGHT_MIN_STAY"
    (data.short_flight_min_stay.map toString)
  let e := setVarOpt e "SHORT_FLIGHT_MAX_STAY"
    (data.short_flight_max_stay.map toString)
  let e := setVarOpt e "LONG_FLIGHT_MIN_STAY"
    (data.long_flight_min_stay.map toString)
  let e := setVarOpt e "LONG_FLIGHT_MAX_STAY"
    (data.long_flight_max_stay.map toString)
  let e := setVarOpt e "RETURN_DATE_MIN_STAY"
    (data.return_date_min_stay.map toString)
  let e := setVarOpt e "RETURN_DATE_MAX_STAY"
    (data.return_date_max_stay.map toString)
  let e := setVarOpt e "PRICE_DROP_PERCENTAGE"
    (data.price_drop_percentage.map toString)
  let e := setVarOpt e "PRICE_DROP_Z_SCORE"
    (data.price_drop_z_score.map toString)
  let e := setVarOpt e "MAX_PRICE_TRY" (data.max_price_try.map toString)
  let e := setVarOpt e "USE_REAL_TIME_CURRENCY_RATES"
    (data.use_real_time_currency_rates.map
      (fun b => if b then "true" else "false"))
  let e := match data.currency_rates with
    | none => e
    | some rates =>
      rates.foldl
        (fun acc cr => setVar acc ("CURRENCY_RATE_" ++ cr.1.toUpper)
          (toString cr.2)) e
  let e := setVarOpt e "TELEGRAM_ENABLED"
    (data.telegram_enabled.map (fun b => if b then "true" else "false"))
  let e := setVarOpt e "TELEGRAM_BOT_TOKEN" data.telegram_bot_token
  setVarOpt e "TELEGRAM_CHAT_ID" data.telegram_chat_id

/-- The in-memory configuration module values (`flight_alert_bot.config`),
read once at process start. -/
structure BotConfig where
  scrape_interval_minutes : ℚ
  price_drop_percentage : ℚ
  price_drop_z_score : ℚ
  max_price_try : ℚ
deriving DecidableEq, Repr

/-- The state a configuration POST could conceivably touch: the `.env` file
(as parsed key/value pairs), the running process's in-memory configuration,
and the pipeline's baseline and dedupe state. -/
structure ProcState where
  envFile : List (String × String)
  memConfig : BotConfig
  baselines : List (String × ℚ)
  dedupeKeys : List String
deriving DecidableEq, Repr

/-- The JSON response of the configuration endpoint. -/
structure ConfigResponse where
  success : Bool
  message : String
deriving DecidableEq, Repr

/-- The POST branch of `config_api` in `main.py` (lines 512-538): a missing
`scrape_interval_minutes` key makes `data.get(...) < 5` raise a `TypeError`,
which the surrounding handler catches and reports as failure; a value below
5 is rejected explicitly; otherwise `update_env_file` rewrites the `.env`
file and nothing else. -/
def config_post (data : ConfigData) (st : ProcState) :
    ProcState × ConfigResponse :=
  match data.scrape_interval_minutes with
  | none =>
    (st, ⟨false, "'<' not supported between instances of 'NoneType' and 'int'"⟩)
  | some v =>
    if v < 5 then
      (st, ⟨false, "Scrape interval must be at least 5 minutes"⟩)
    else
      ({st with envFile := update_env_file data st.envFile},
       ⟨true, "Configuration updated. Changes will take effect on next workflow restart."⟩)

/-! ## City pairs endpoint (`main.py` lines 270-313) -/

/-- An origin/destination pair returned by `get_city_pairs`. -/
structure CityPair where
  origin : String
  destination : String
deriving DecidableEq, Repr

/-- The hardcoded mock-data city pairs of `get_city_pairs`
(`main.py` lines 275-281, also its MongoDB-error fallback). -/
def mockCityPairs : List CityPair :=
  [⟨"IST", "JFK"⟩, ⟨"IST", "LHR"⟩, ⟨"JFK", "LHR"⟩,
   ⟨"JFK", "SFO"⟩, ⟨"LHR", "CDG"⟩]

/-- `count_documents({'origin': o, 'destination': d})` over the stored
flight documents. -/
def countDocuments (stored : List FlightDoc) (o d : String) : ℕ :=
  (stored.filter (fun f => f.origin == o && f.destination == d)).length

/-- The MongoDB branch of `get_city_pairs` (`main.py` lines 283-304): for
each distinct origin and each distinct destination, skip identical pairs and
keep the pair exactly when at least one stored flight matches both
fields. -/
def get_city_pairs_db (stored : List FlightDoc) : List CityPair :=
  ((stored.map FlightDoc.origin).dedup).flatMap (fun o =>
    ((stored.map FlightDoc.destination).dedup).filterMap (fun d =>
      if o ≠ d ∧ 0 < countDocuments stored o d then
        some ⟨o, d⟩
      else
        none))

end CheapFlightFinder

namespace CheapFlightFinder

/-- C1. Every flight returned by the MongoDB branch of `get_flights` has a
price strictly above zero and distinct from the sentinels `9999` and `-1`;
conversely a stored document whose (defaulted) price is `≤ 0` or a sentinel
never appears in the returned list. -/
theorem get_flights_db_sentinel_exclusion
    (qOrigin qDest qDate : Option String) (today future : String)
    (stored : List FlightDoc) (f : FlightDoc) :
    (f ∈ get_flights_db qOrigin qDest qDate today future stored →
      0 < f.priceOrZero ∧ f.priceOrZero ≠ 9999 ∧ f.priceOrZero ≠ -1) ∧
    (f.priceOrZero ≤ 0 ∨ f.priceOrZero = 9999 ∨ f.priceOrZero = -1 →
      f ∉ get_flights_db qOrigin qDest qDate today future stored) := by
  constructor
  · intro hmem
    have hval : listingPriceValid f.priceOrZero = true :=
      (List.mem_filter.mp hmem).2
    simp only [listingPriceValid, Bool.and_eq_true, decide_eq_true_eq] at hval
    exact ⟨hval.2, hval.1.1, hval.1.2⟩
  · intro hbad hmem
    have hval : listingPriceValid f.priceOrZero = true :=
      (List.mem_filter.mp hmem).2
    simp only [listingPriceValid, Bool.and_eq_true, decide_eq_true_eq] at hval
    rcases hbad with h | h | h
    · exact absurd hval.2 (not_lt.mpr h)
    · exact hval.1.1 h
    · exact hval.1.2 h

/-- Witness for C1: on a concrete store holding one valid flight, one
sentinel-priced flight and one priceless flight, the theorem yields the
stated exclusions. -/
theorem get_flights_db_sentinel_exclusion_witness :
    (⟨"IST", "JFK", "2025-06-15", some 8500⟩ : FlightDoc) ∈
      get_flights_db none none (some "2025-06-15") "2025-06-01" "2025-09-29"
        [⟨"IST", "JFK", "2025-06-15", some 8500⟩,
         ⟨"IST", "JFK", "2025-06-15", some 9999⟩,
         ⟨"IST", "JFK", "2025-06-15", none⟩] ∧
    (0 < (8500 : ℚ) ∧ (8500 : ℚ) ≠ 9999 ∧ (8500 : ℚ) ≠ -1) ∧
    (⟨"IST", "JFK", "2025-06-15", some 9999⟩ : FlightDoc) ∉
      get_flights_db none none (some "2025-06-15") "2025-06-01" "2025-09-29"
        [⟨"IST", "JFK", "2025-06-15", some 8500⟩,
         ⟨"IST", "JFK", "2025-06-15", some 9999⟩,
         ⟨"IST", "JFK", "2025-06-15", none⟩] := by
  refine ⟨by decide, ?_, ?_⟩
  · have h := (get_flights_db_sentinel_exclusion none none (some "2025-06-15")
      "2025-06-01" "2025-09-29"
      [⟨"IST", "JFK", "2025-06-15", some 8500⟩,
       ⟨"IST", "JFK", "2025-06-15", some 9999⟩,
       ⟨"IST", "JFK", "2025-06-15", none⟩]
      ⟨"IST", "JFK", "2025-06-15", some 8500⟩).1 (by decide)
    simpa [FlightDoc.priceOrZero] using h
  · exact (get_flights_db_sentinel_exclusion none none (some "2025-06-15")
      "2025-06-01" "2025-09-29"
      [⟨"IST", "JFK", "2025-06-15", some 8500⟩,
       ⟨"IST", "JFK", "2025-06-15", some 9999⟩,
       ⟨"IST", "JFK", "2025-06-15", none⟩]
      ⟨"IST", "JFK", "2025-06-15", some 9999⟩).2 (by norm_num [FlightDoc.priceOrZero])

/-- C4. The listing endpoint's price predicate and the statistics endpoint's
price predicate accept exactly the same rationals: a price above zero can
never equal `-1`, so the extra `≠ -1` conjunct of the listing filter is
redundant. -/
theorem listing_statistics_price_filter_agree (p : ℚ) :
    listingPriceValid p = statisticsPriceValid p := by
  simp only [listingPriceValid, statisticsPriceValid]
  by_cases h0 : 0 < p
  · have hne : p ≠ -1 := by intro h; rw [h] at h0; norm_num at h0
    by_cases h9 : p = 9999 <;> simp [h0, h9, hne]
  · simp [h0]

/-- C2. IST→JFK scenario of spec §8: with baseline mean 10000,
stddev 1000, sample count 20, thresholds 15 % and z = 2.0 (any configured
minimum sample count `m ≤ 20` and price ceiling `c ≥ 9200`), a new price of
8000 yields an ALERT recording percentage drop 20 and z-score 2, while a new
price of 9200 yields NO-ALERT. -/
theorem detect_ist_jfk_scenario (m : ℕ) (c : ℚ) (hm : m ≤ 20) (hc : 9200 ≤ c) :
    (percentageFires ⟨15, 2, m, c⟩ ⟨10000, 1000, 20⟩ 8000 = true ∧
     zFires ⟨15, 2, m, c⟩ ⟨10000, 1000, 20⟩ 8000 = true ∧
     detect ⟨15, 2, m, c⟩ ⟨10000, 1000, 20⟩ 8000 = some ⟨20, 2⟩) ∧
    (percentageFires ⟨15, 2, m, c⟩ ⟨10000, 1000, 20⟩ 9200 = false ∧
     zFires ⟨15, 2, m, c⟩ ⟨10000, 1000, 20⟩ 9200 = false ∧
     detect ⟨15, 2, m, c⟩ ⟨10000, 1000, 20⟩ 9200 = none) := by
  have hc8 : (8000 : ℚ) ≤ c := le_trans (by norm_num) hc
  have hdrop8 : percentageDrop ⟨10000, 1000, 20⟩ 8000 = 20 := by
    norm_num [percentageDrop]
  have hz8 : zScore ⟨10000, 1000, 20⟩ 8000 = 2 := by
    norm_num [zScore]
  have hdrop9 : percentageDrop ⟨10000, 1000, 20⟩ 9200 = 8 := by
    norm_num [percentageDrop]
  have hz9 : zScore ⟨10000, 1000, 20⟩ 9200 = 4/5 := by
    norm_num [zScore]
  have hp8 : percentageFires ⟨15, 2, m, c⟩ ⟨10000, 1000, 20⟩ 8000 = true := by
    simp [percentageFires, hdrop8]; norm_num
  have hzf8 : zFires ⟨15, 2, m, c⟩ ⟨10000, 1000, 20⟩ 8000 = true := by
    simp [zFires, hz8, hm]
  have hp9 : percentageFires ⟨15, 2, m, c⟩ ⟨10000, 1000, 20⟩ 9200 = false := by
    simp [percentageFires, hdrop9]; norm_num
  have hzf9 : zFires ⟨15, 2, m, c⟩ ⟨10000, 1000, 20⟩ 9200 = false := by
    simp [zFires, hz9]; intro; norm_num
  refine ⟨⟨hp8, hzf8, ?_⟩, hp9, hzf9, ?_⟩
  · simp [detect, priceAdmissible, hp8, hdrop8, hz8, hc8]
    norm_num
  · simp [detect, hp9, hzf9]

/-- Witness for C2: the scenario instantiated at a concrete minimum sample
count of 5 and a price ceiling of 20000. -/
theorem detect_ist_jfk_scenario_witness :
    (5 ≤ 20 ∧ (9200 : ℚ) ≤ 20000) ∧
    (detect ⟨15, 2, 5, 20000⟩ ⟨10000, 1000, 20⟩ 8000 = some ⟨20, 2⟩ ∧
     detect ⟨15, 2, 5, 20000⟩ ⟨10000, 1000, 20⟩ 9200 = none) :=
  ⟨⟨by norm_num, by norm_num⟩,
   (detect_ist_jfk_scenario 5 20000 (by norm_num) (by norm_num)).1.2.2,
   (detect_ist_jfk_scenario 5 20000 (by norm_num) (by norm_num)).2.2.2⟩

/-- Counterexample to C3: in a tick where the return-flight fetch raises,
the combination stage does not execute at all — the single `try` block of
`run_bot_once` aborts the remaining stages of the tick instead of isolating
the failure per stage. -/
theorem run_bot_once_no_per_stage_isolation :
    stageOk (failingReturnStages .fetchReturn) = false ∧
    StageId.combine ∉ (run_bot_once 30 failingReturnStages).1 ∧
    StageId.alerts ∉ (run_bot_once 30 failingReturnStages).1 := by
  decide

/-- C3 (amended). Stage failures are isolated at the tick boundary, not per
stage: when any stage of a tick raises, `run_bot_once` still returns
normally with the default 15-minute interval, the executed stages form a
prefix of the canonical order (the stages after the failing one are
skipped), and `run_scheduled_task` likewise returns normally with `False`. -/
theorem run_bot_once_tick_level_isolation (cfg : ℕ)
    (stage : StageId → Except String ℕ)
    (hfail : ∃ st, stageOk (stage st) = false) :
    (run_bot_once cfg stage).2 = 15 ∧
    (run_bot_once cfg stage).1 <+: stageOrder ∧
    (run_scheduled_task stage).2 = false := by
  rcases h1 : stage .fetchOneWay with e1 | n1
  · refine ⟨?_, ?_, ?_⟩ <;> simp [run_bot_once, run_scheduled_task, h1, stageOrder]
  · rcases h2 : stage .fetchReturn with e2 | n2
    · refine ⟨?_, ?_, ?_⟩ <;>
        simp [run_bot_once, run_scheduled_task, h1, h2, stageOrder]
    · rcases h3 : stage .combine with e3 | n3
      · refine ⟨?_, ?_, ?_⟩ <;>
          simp [run_bot_once, run_scheduled_task, h1, h2, h3, stageOrder]
      · rcases h4 : stage .alerts with e4 | n4
        · refine ⟨?_, ?_, ?_⟩ <;>
            simp [run_bot_once, run_scheduled_task, h1, h2, h3, h4, stageOrder]
        · exfalso
          obtain ⟨st, hst⟩ := hfail
          cases st <;>
            simp [stageOk, h1, h2, h3, h4] at hst

/-- Witness for the amended C3: the tick whose return-flight fetch raises
returns the default interval, skips the rest, and fails the scheduled
task. -/
theorem run_bot_once_tick_level_isolation_witness :
    (∃ st, stageOk (failingReturnStages st) = false) ∧
    ((run_bot_once 30 failingReturnStages).2 = 15 ∧
     (run_bot_once 30 failingReturnStages).1 <+: stageOrder ∧
     (run_scheduled_task failingReturnStages).2 = false) :=
  ⟨⟨.fetchReturn, rfl⟩,
   run_bot_once_tick_level_isolation 30 failingReturnStages ⟨.fetchReturn, rfl⟩⟩

/-- Counterexample to C5: in a tick where the combination stage raises, the
alert stage runs zero times, so not every tick executes each stage exactly
once. -/
theorem run_bot_once_stage_skipped :
    stageOk (failingCombineStages .combine) = false ∧
    List.count StageId.alerts (run_bot_once 30 failingCombineStages).1 = 0 := by
  decide

/-- C5 (amended). In every tick the executed stages form a prefix of the
fixed order fetch one-way → fetch return → combine → alerts, with no stage
executed twice; in a tick where no stage raises, each of the four stages
executes exactly once in that order and the configured interval is
returned. -/
theorem run_bot_once_fixed_stage_order (cfg : ℕ)
    (stage : StageId → Except String ℕ) :
    (run_bot_once cfg stage).1 <+: stageOrder ∧
    (run_bot_once cfg stage).1.Nodup ∧
    ((∀ st, stageOk (stage st) = true) →
      run_bot_once cfg stage = (stageOrder, cfg)) := by
  rcases h1 : stage .fetchOneWay with e1 | n1
  · refine ⟨?_, ?_, fun hok => absurd (hok .fetchOneWay) (by simp [h1, stageOk])⟩ <;>
      simp [run_bot_once, h1, stageOrder]
  · rcases h2 : stage .fetchReturn with e2 | n2
    · refine ⟨?_, ?_, fun hok => absurd (hok .fetchReturn) (by simp [h2, stageOk])⟩ <;>
        simp [run_bot_once, h1, h2, stageOrder]
    · rcases h3 : stage .combine with e3 | n3
      · refine ⟨?_, ?_, fun hok => absurd (hok .combine) (by simp [h3, stageOk])⟩ <;>
          simp [run_bot_once, h1, h2, h3, stageOrder]
      · rcases h4 : stage .alerts with e4 | n4
        · refine ⟨?_, ?_, fun hok => absurd (hok .alerts) (by simp [h4, stageOk])⟩ <;>
            simp [run_bot_once, h1, h2, h3, h4, stageOrder]
        · refine ⟨?_, ?_, fun _ => ?_⟩ <;>
            simp [run_bot_once, h1, h2, h3, h4, stageOrder]

/-- Helper: a tick in which every stage succeeds executes the full canonical
stage order and returns the configured interval. -/
theorem run_bot_once_all_ok (cfg : ℕ) (stage : StageId → Except String ℕ)
    (hok : ∀ st, stageOk (stage st) = true) :
    run_bot_once cfg stage = (stageOrder, cfg) := by
  rcases h1 : stage .fetchOneWay with e1 | n1
  · exact absurd (hok .fetchOneWay) (by simp [h1, stageOk])
  rcases h2 : stage .fetchReturn with e2 | n2
  · exact absurd (hok .fetchReturn) (by simp [h2, stageOk])
  rcases h3 : stage .combine with e3 | n3
  · exact absurd (hok .combine) (by simp [h3, stageOk])
  rcases h4 : stage .alerts with e4 | n4
  · exact absurd (hok .alerts) (by simp [h4, stageOk])
  simp [run_bot_once, h1, h2, h3, h4]

/-- C6. Consecutive ticks of the continuous runner never overlap: for every
`i` with `i + 1 < k`, the trace of the first `k` loop iterations contains
the end of tick `i`, then a single sleep of the tick's returned interval in
minutes times 60 seconds, then the start of tick `i + 1`; and after a tick
in which no stage raised, that interval is the configured
`SCRAPE_INTERVAL_MINUTES`. -/
theorem mainTrace_no_overlap_and_sleep (cfg : ℕ)
    (ticks : ℕ → StageId → Except String ℕ) (k i : ℕ) (hik : i + 1 < k) :
    (∃ pre post, mainTrace cfg ticks k =
        pre ++ [Event.tickEnd i,
                Event.sleepSeconds ((run_bot_once cfg (ticks i)).2 * 60),
                Event.tickStart (i + 1)] ++ post) ∧
    ((∀ st, stageOk (ticks i st) = true) →
      (run_bot_once cfg (ticks i)).2 = cfg) := by
  constructor
  · induction k with
    | zero => omega
    | succ n ih =>
      by_cases h : i + 1 < n
      · obtain ⟨pre, post, hp⟩ := ih h
        refine ⟨pre, post ++ [.tickStart n, .tickEnd n,
          .sleepSeconds ((run_bot_once cfg (ticks n)).2 * 60)], ?_⟩
        simp [mainTrace, hp]
      · have hn : n = i + 1 := by omega
        subst hn
        refine ⟨mainTrace cfg ticks i ++ [.tickStart i],
                [.tickEnd (i + 1),
                 .sleepSeconds ((run_bot_once cfg (ticks (i + 1))).2 * 60)], ?_⟩
        simp [mainTrace]
  · intro hok
    rw [run_bot_once_all_ok cfg (ticks i) hok]

/-- Witness for C6: two all-successful iterations at a configured interval
of 30 minutes, observed at consecutive ticks 0 and 1. -/
theorem mainTrace_no_overlap_and_sleep_witness :
    0 + 1 < 2 ∧
    ((∃ pre post, mainTrace 30 (fun _ => allOkStages) 2 =
        pre ++ [Event.tickEnd 0,
                Event.sleepSeconds ((run_bot_once 30 allOkStages).2 * 60),
                Event.tickStart 1] ++ post) ∧
     ((∀ st, stageOk (allOkStages st) = true) →
       (run_bot_once 30 allOkStages).2 = 30)) :=
  ⟨by decide,
   mainTrace_no_overlap_and_sleep 30 (fun _ => allOkStages) 2 0 (by decide)⟩

/-- Witness for the amended C5: an all-successful tick executes the four
stages exactly once in canonical order and returns the configured
interval. -/
theorem run_bot_once_fixed_stage_order_witness :
    ((run_bot_once 30 allOkStages).1 <+: stageOrder ∧
     (run_bot_once 30 allOkStages).1.Nodup ∧
     ((∀ st, stageOk (allOkStages st) = true) →
       run_bot_once 30 allOkStages = (stageOrder, 30))) ∧
    run_bot_once 30 allOkStages = (stageOrder, 30) :=
  ⟨run_bot_once_fixed_stage_order 30 allOkStages,
   (run_bot_once_fixed_stage_order 30 allOkStages).2.2 (fun st => by cases st <;> rfl)⟩

/-- Counterexample to C7: with a configured URI and a failing ping
(a `ConnectionFailure` at process start), the dashboard does not abort — it
comes up running on mock data. -/
theorem startup_connection_failure_not_fatal :
    startup false (some "mongodb://localhost:27017") false =
      StartupOutcome.runningWithMock ∧
    startup false (some "mongodb://localhost:27017") false ≠
      StartupOutcome.aborted := by
  decide

/-- C7 (amended). A persistence-connectivity failure at process start is not
fatal: for every configured URI, the caught `ConnectionFailure` makes the
process fall back to mock data and keep running, and no combination of
startup inputs ever aborts the process. -/
theorem startup_falls_back_to_mock (mockEnv : Bool) (uri : Option String)
    (pingOk : Bool) (huri : uri.isSome = true) :
    startup false uri false = StartupOutcome.runningWithMock ∧
    startup mockEnv uri pingOk ≠ StartupOutcome.aborted := by
  constructor
  · simp [startup, huri]
  · cases mockEnv <;> cases pingOk <;> simp [startup, huri]

/-- Witness for the amended C7. -/
theorem startup_falls_back_to_mock_witness :
    (some "mongodb://db").isSome = true ∧
    (startup false (some "mongodb://db") false =
       StartupOutcome.runningWithMock ∧
     startup false (some "mongodb://db") false ≠ StartupOutcome.aborted) :=
  ⟨rfl, startup_falls_back_to_mock false (some "mongodb://db") false rfl⟩

/-- C8. A configuration POST leaves everything but the `.env` file alone:
whatever the request body, the running process's in-memory configuration,
the baseline state and the dedupe state after `config_post` are exactly
those before it, so an accepted edit takes effect only when a restart
re-reads the `.env` file. -/
theorem config_post_frame (data : ConfigData) (st : ProcState) :
    (config_post data st).1.memConfig = st.memConfig ∧
    (config_post data st).1.baselines = st.baselines ∧
    (config_post data st).1.dedupeKeys = st.dedupeKeys := by
  unfold config_post
  rcases data.scrape_interval_minutes with _ | v
  · exact ⟨rfl, rfl, rfl⟩
  · dsimp only
    split <;> exact ⟨rfl, rfl, rfl⟩

/-- C9. A configuration POST whose body lacks `scrape_interval_minutes`
(the comparison with `5` raises a caught `TypeError`) or maps it to a value
below 5 answers `success = false` and leaves the `.env` file untouched. -/
theorem config_post_rejects_bad_interval (data : ConfigData) (st : ProcState)
    (h : data.scrape_interval_minutes = none ∨
      ∃ v, data.scrape_interval_minutes = some v ∧ v < 5) :
    (config_post data st).2.success = false ∧
    (config_post data st).1.envFile = st.envFile := by
  rcases h with h | ⟨v, hv, hlt⟩
  · simp [config_post, h]
  · simp [config_post, hv, hlt]

/-- Witness for C9: the empty POST body against a concrete process state is
rejected with the state unchanged. -/
theorem config_post_rejects_bad_interval_witness :
    (emptyConfigData.scrape_interval_minutes = none ∨
      ∃ v, emptyConfigData.scrape_interval_minutes = some v ∧ v < 5) ∧
    ((config_post emptyConfigData
        ⟨[("SCRAPE_INTERVAL_MINUTES", "30")], ⟨30, 15, 2, 20000⟩, [], []⟩).2.success
        = false ∧
     (config_post emptyConfigData
        ⟨[("SCRAPE_INTERVAL_MINUTES", "30")], ⟨30, 15, 2, 20000⟩, [], []⟩).1.envFile
        = [("SCRAPE_INTERVAL_MINUTES", "30")]) :=
  ⟨Or.inl rfl,
   config_post_rejects_bad_interval emptyConfigData
     ⟨[("SCRAPE_INTERVAL_MINUTES", "30")], ⟨30, 15, 2, 20000⟩, [], []⟩
     (Or.inl rfl)⟩

/-- C10. Every pair emitted by `get_city_pairs` has distinct origin and
destination — in the MongoDB branch because self-pairs are skipped
explicitly, in the mock branch by inspection of the hardcoded list — and in
the MongoDB branch every emitted pair is matched by at least one stored
flight. -/
theorem get_city_pairs_invariants (stored : List FlightDoc) (p : CityPair) :
    (p ∈ get_city_pairs_db stored →
      p.origin ≠ p.destination ∧
      ∃ f ∈ stored, f.origin = p.origin ∧ f.destination = p.destination) ∧
    (p ∈ mockCityPairs → p.origin ≠ p.destination) := by
  constructor
  · intro hmem
    simp only [get_city_pairs_db, List.mem_flatMap, List.mem_filterMap] at hmem
    obtain ⟨o, _, d, _, hif⟩ := hmem
    by_cases hc : o ≠ d ∧ 0 < countDocuments stored o d
    · rw [if_pos hc] at hif
      obtain ⟨hne, hcount⟩ := hc
      cases hif
      refine ⟨hne, ?_⟩
      have : (stored.filter
          (fun f => f.origin == o && f.destination == d)) ≠ [] := by
        intro hnil
        rw [countDocuments, hnil] at hcount
        exact absurd hcount (by simp)
      obtain ⟨f, hf⟩ := List.exists_mem_of_ne_nil _ this
      have := List.mem_filter.mp hf
      refine ⟨f, this.1, ?_⟩
      have hb := this.2
      simp only [Bool.and_eq_true, beq_iff_eq] at hb
      exact ⟨hb.1, hb.2⟩
    · rw [if_neg hc] at hif
      exact absurd hif (by simp)
  · intro hmem
    fin_cases hmem <;> decide

/-- Witness for C10: a store holding a single IST→JFK flight yields the pair
IST→JFK, which is not a self-pair and is matched by the stored flight; and
the first mock pair is not a self-pair. -/
theorem get_city_pairs_invariants_witness :
    (⟨"IST", "JFK"⟩ : CityPair) ∈
      get_city_pairs_db [⟨"IST", "JFK", "2025-06-15", some 8500⟩] ∧
    ((("IST" : String) ≠ "JFK") ∧
      ∃ f ∈ [(⟨"IST", "JFK", "2025-06-15", some 8500⟩ : FlightDoc)],
        f.origin = "IST" ∧ f.destination = "JFK") ∧
    ((⟨"IST", "JFK"⟩ : CityPair) ∈ mockCityPairs → ("IST" : String) ≠ "JFK") :=
  ⟨by decide,
   (get_city_pairs_invariants [⟨"IST", "JFK", "2025-06-15", some 8500⟩]
      ⟨"IST", "JFK"⟩).1 (by decide),
   (get_city_pairs_invariants [⟨"IST", "JFK", "2025-06-15", some 8500⟩]
      ⟨"IST", "JFK"⟩).2⟩

end CheapFlightFinder
